import Mathlib

/-!
Shallow embedding of the DeepVoice interview-assistant core:
the `SessionManager` conversation-memory store (src/unnamed/part_001) and the
`LLMService` orchestration pipeline (src/src/ui/chat-window.js).

JS strings are modelled as Lean `String` (sequences of `Char`); JS
`Date.now()` timestamps as `Int` milliseconds passed explicitly; external
effects (the Groq network client, the prompt-file loader, regex-battery topic
matching, entropy for event ids) as explicit oracle parameters.
-/

namespace DV

/-! ## JS string helpers -/

/-- JS `s.substring(0, n)` (equivalently `s.slice(0, n)`): the first `n`
characters of `s`. -/
def strTake (s : String) (n : Nat) : String := String.mk (s.data.take n)

/-- Membership of a character in the JS regex `\s` class (ECMA-262 WhiteSpace
plus LineTerminator). -/
def isJsSpace (c : Char) : Bool :=
  c = ' ' || c = '\t' || c = '\n' || c = '\r' || c = '\x0b' || c = '\x0c' ||
  c = ' ' || c = ' ' || (' ' ≤ c && c ≤ ' ') ||
  c = ' ' || c = ' ' || c = ' ' || c = ' ' ||
  c = '　' || c = '﻿'

/-- JS `s.toLowerCase()` modelled character-wise. -/
def jsToLower (s : String) : String := String.mk (s.data.map Char.toLower)

/-- JS `s.trim()`: strip `\s` characters from both ends. -/
def jsTrim (s : String) : String :=
  String.mk (((s.data.dropWhile isJsSpace).reverse.dropWhile isJsSpace).reverse)

/-- JS object-spread update on an association-list model of an object:
`{...m, k: v}` overrides `k` in place if present, else appends it. -/
def jsSetKey (m : List (String × String)) (k v : String) : List (String × String) :=
  if m.any (fun p => p.1 = k) then m.map (fun p => if p.1 = k then (k, v) else p)
  else m ++ [(k, v)]

/-- JS `{base..., ...extra}`: merge `extra` entries into `base` left to right. -/
def jsMergeObj (base extra : List (String × String)) : List (String × String) :=
  extra.foldl (fun m kv => jsSetKey m kv.1 kv.2) base

/-! ## SessionManager data model (src/unnamed/part_001) -/

/-- One conversation-memory event record (`addConversationEvent` shape). -/
structure SMEvent where
  id : String
  timestamp : Int
  role : String
  content : String
  action : String
  category : String
  metadata : List (String × String)
deriving DecidableEq

/-- One topic-index occurrence: `{content, timestamp, relevance}`; the
constant relevance `1.0` is modelled as the natural number `1`. -/
structure TopicOccurrence where
  content : String
  timestamp : Int
  relevance : Nat
deriving DecidableEq

/-- The mutable `SessionManager` state: memory log, topic index (a `Map`
modelled as an insertion-ordered association list), configuration values read
from `config` at construction, and session lifecycle fields.  The auto-end
`setTimeout` handle is modelled as an optional timer id. -/
structure SessionState where
  sessionMemory : List SMEvent
  topicTags : List (String × List TopicOccurrence)
  maxSize : Nat
  compressionThreshold : Nat
  maxDurationMinutes : Nat
  activeSkill : String
  sessionStartTime : Option Int
  sessionActive : Bool
  sessionTimer : Option Nat
deriving DecidableEq

/-- `inferActionFromRole` (part_001 lines 444-451). -/
def inferActionFromRole (role : String) : String :=
  if role = "user" then "user_message"
  else if role = "model" then "model_response"
  else if role = "system" then "system_event"
  else "unknown"

/-- `categorizeAction` (part_001 lines 453-463); a falsy (empty) action maps
to `"general"`. -/
def categorizeAction (action : String) : String :=
  if action = "" then "general"
  else if action = "voice_input" ∨ action = "chat_input" then "interaction"
  else if action = "model_response" ∨ action = "copilot_whisper" then "ai"
  else if action = "ocr_capture" ∨ action = "screenshot" then "capture"
  else if action = "skill_init" ∨ action = "skill_change" ∨
          action = "session_start" ∨ action = "session_end" then "system"
  else "general"

/-- `getElapsedMinutes` (part_001 lines 85-88): `Math.round((now - start) / 60000)`,
0 when no session start time. -/
def getElapsedMinutes (st : SessionState) (now : Int) : Int :=
  match st.sessionStartTime with
  | none => 0
  | some s => Int.fdiv (2 * (now - s) + 60000) 120000

/-- Push one occurrence of `topic` onto the topic index
(`extractAndTagTopics` inner loop, part_001 lines 278-288). -/
def tagTopic (tags : List (String × List TopicOccurrence)) (topic : String)
    (content : String) (timestamp : Int) : List (String × List TopicOccurrence) :=
  let occ : TopicOccurrence := { content := strTake content 200, timestamp := timestamp, relevance := 1 }
  if tags.any (fun p => p.1 = topic) then
    tags.map (fun p => if p.1 = topic then (p.1, p.2 ++ [occ]) else p)
  else tags ++ [(topic, [occ])]

/-- `extractAndTagTopics` (part_001 lines 247-291).  The fixed battery of
domain-vocabulary regular expressions is abstracted as `matcher`, which
returns the full, pattern-ordered list of raw matches of `content`; each
match is lower-cased, trimmed and filed.  Empty (falsy) content is skipped. -/
def extractAndTagTopics (matcher : String → List String)
    (tags : List (String × List TopicOccurrence)) (content : String)
    (timestamp : Int) : List (String × List TopicOccurrence) :=
  if content = "" then tags
  else (matcher content).foldl
    (fun tg m => tagTopic tg (jsTrim (jsToLower m)) content timestamp) tags

/-- `evictExpiredEvents` (part_001 lines 218-242): drop events older than the
`maxDurationMinutes` window except `system`+`skill_init` baseline events;
prune topic occurrences below the same cutoff and delete emptied topics. -/
def evictExpiredEvents (st : SessionState) (now : Int) : SessionState :=
  let cutoffTime : Int := now - (st.maxDurationMinutes * 60 * 1000 : Nat)
  { st with
    sessionMemory := st.sessionMemory.filter (fun e =>
      if e.category = "system" ∧ e.action = "skill_init" then true
      else decide (e.timestamp ≥ cutoffTime)),
    topicTags :=
      (st.topicTags.map (fun p =>
        (p.1, p.2.filter (fun o => decide (o.timestamp ≥ cutoffTime))))).filter
        (fun p => decide (p.2 ≠ [])) }

/-- The merged event produced by `consolidateSimilarEvents`: content annotated
with the occurrence-count suffix, metadata gaining `consolidated: true`; all
other fields (including `category` and `action`) copied unchanged. -/
def mergeConsolidated (e : SMEvent) : SMEvent :=
  { e with content := e.content ++ " (×2)",
           metadata := jsSetKey e.metadata "consolidated" "true" }

/-- `consolidateSimilarEvents` (part_001 lines 491-518): one left-to-right
pass; two adjacent events both of category `system` with identical `action`
are merged into one and the scan resumes after the pair. -/
def consolidateSimilarEvents : List SMEvent → List SMEvent
  | [] => []
  | [e] => [e]
  | e1 :: e2 :: rest =>
    if e1.category = "system" ∧ e2.category = "system" ∧ e2.action = e1.action then
      mergeConsolidated e1 :: consolidateSimilarEvents rest
    else
      e1 :: consolidateSimilarEvents (e2 :: rest)

/-- `performMaintenance` (part_001 lines 479-489): evict, consolidate, then
truncate from the front (`slice(excess)`) when the log still exceeds
`maxSize`. -/
def performMaintenance (st : SessionState) (now : Int) : SessionState :=
  let st1 := evictExpiredEvents st now
  let mem2 := consolidateSimilarEvents st1.sessionMemory
  if mem2.length > st.maxSize then
    { st1 with sessionMemory := mem2.drop (mem2.length - st.maxSize) }
  else
    { st1 with sessionMemory := mem2 }

/-- `performMaintenanceIfNeeded` (part_001 lines 473-477). -/
def performMaintenanceIfNeeded (st : SessionState) (now : Int) : SessionState :=
  if st.sessionMemory.length > st.compressionThreshold then performMaintenance st now
  else st

/-- `addConversationEvent` (part_001 lines 150-171).  `newId` stands for the
entropy-bearing `generateEventId()` result; `matcher` abstracts the topic
regex battery.  Returns the post-maintenance state and the created event. -/
def addConversationEvent (matcher : String → List String) (st : SessionState)
    (now : Int) (newId : String) (role content : String) (action : Option String)
    (metadata : List (String × String)) : SessionState × SMEvent :=
  let act := match action with
    | some a => if a = "" then inferActionFromRole role else a
    | none => inferActionFromRole role
  let catKey := match action with
    | some a => if a = "" then role else a
    | none => role
  let event : SMEvent :=
    { id := newId, timestamp := now, role := role, content := content,
      action := act, category := categorizeAction catKey,
      metadata := jsSetKey (jsSetKey metadata "skill" st.activeSkill)
        "sessionElapsed" (toString (getElapsedMinutes st now)) }
  let st1 := { st with
    sessionMemory := st.sessionMemory ++ [event],
    topicTags := extractAndTagTopics matcher st.topicTags content now }
  let st2 := evictExpiredEvents st1 now
  (performMaintenanceIfNeeded st2 now, event)

/-- `addOCREvent` (part_001 lines 191-200): cap the extracted text at 4000
characters with a `...` truncation marker, prefix it, and append as a
`system`/`ocr_capture` event. -/
def addOCREvent (matcher : String → List String) (st : SessionState) (now : Int)
    (newId : String) (extractedText : String) (metadata : List (String × String)) :
    SessionState × SMEvent :=
  let safeText :=
    if extractedText.length > 4000 then strTake extractedText 4000 ++ "..."
    else extractedText
  addConversationEvent matcher st now newId "system"
    ("Screenshot captured: " ++ safeText) (some "ocr_capture")
    (jsMergeObj [("fullTextLength", toString extractedText.length)] metadata)

/-- The per-skill seeding step of `initializeWithSkillPrompts` (part_001 lines
109-126): a `skill_init` system event when the skill prompt loads (the prompt
loader throwing is `none`; an empty prompt is falsy and also skipped).  `idOf`
stands for the entropy of `generateEventId()`. -/
def skillInitEvent1 (loader : String → Option String) (idOf : String → String)
    (now : Int) (skill : String) : Option SMEvent :=
  match loader skill with
  | some prompt =>
    if prompt = "" then none
    else some
      { id := idOf skill, timestamp := now, role := "system",
        content := "Skill prompt loaded: " ++ skill, action := "skill_init",
        category := "system",
        metadata := [("skill", skill), ("promptLength", toString prompt.length)] }
  | none => none

/-- `initializeWithSkillPrompts` (part_001 lines 105-130): one `skill_init`
system event per configured skill whose prompt loads. -/
def skillInitEvents (loader : String → Option String) (idOf : String → String)
    (now : Int) (skills : List String) : List SMEvent :=
  skills.filterMap (skillInitEvent1 loader idOf now)

/-- `clear` (part_001 lines 581-592): empty the log and topic index, reset the
lifecycle fields, cancel a pending auto-end timer, then re-seed the log via
`initializeWithSkillPrompts`. -/
def clear (st : SessionState) (loader : String → Option String)
    (idOf : String → String) (now : Int) (skills : List String) : SessionState :=
  { st with
    sessionMemory := skillInitEvents loader idOf now skills,
    topicTags := [],
    sessionStartTime := none,
    sessionActive := false,
    sessionTimer := none }

/-! ## Follow-up context (part_001 lines 392-442) -/

/-- The events `getFollowUpContext` considers (part_001 lines 394-398): OCR
captures, user inputs and model responses. -/
def isRelevantFollowUp (e : SMEvent) : Bool :=
  (e.role = "system" && e.action = "ocr_capture") || e.role = "user" || e.role = "model"

/-- Strip the screenshot label (regex `/^Screenshot captured:\s*/i`) from an
OCR event content (part_001 line 410). -/
def stripScreenshotLabel (content : String) : String :=
  let pat := "screenshot captured:".data
  if (content.data.take pat.length).map Char.toLower = pat then
    String.mk ((content.data.drop pat.length).dropWhile isJsSpace)
  else content

/-- One reconstructed question/answer pair with its question source. -/
structure FollowUpPair where
  question : String
  answer : String
  source : String
deriving DecidableEq

/-- The pairing loop of `getFollowUpContext` (part_001 lines 403-425): each
question event (OCR capture, or user input) becomes the current question,
overwriting an earlier unanswered one; a model event is paired with the
pending current question (a JS-falsy empty question never pairs and is kept
pending). -/
def followUpPairsAux : Option (String × String) → List SMEvent → List FollowUpPair
  | _, [] => []
  | cur, e :: rest =>
    if e.action = "ocr_capture" then
      followUpPairsAux (some (stripScreenshotLabel e.content, "screen")) rest
    else if e.role = "user" then
      followUpPairsAux (some (e.content, "voice/chat")) rest
    else if e.role = "model" then
      match cur with
      | some (q, src) =>
        if q = "" then followUpPairsAux cur rest
        else { question := q, answer := e.content, source := src }
              :: followUpPairsAux none rest
      | none => followUpPairsAux none rest
    else followUpPairsAux cur rest

/-- All follow-up pairs reconstructed from a memory log. -/
def followUpPairs (mem : List SMEvent) : List FollowUpPair :=
  followUpPairsAux none (mem.filter isRelevantFollowUp)

/-- JS `arr.slice(-k)`: the last `k` elements for `k > 0`, the whole array
for `k = 0` (since `slice(-0)` is `slice(0)`). -/
def jsSliceLast (l : List FollowUpPair) (k : Nat) : List FollowUpPair :=
  if k = 0 then l else l.drop (l.length - k)

/-- The rendering of one turn (part_001 lines 433-438), question capped at
1500 characters and answer at 2000. -/
def renderTurn (i : Nat) (p : FollowUpPair) : String :=
  "\n--- Turn " ++ toString (i + 1) ++ " ---\n"
  ++ (if p.source = "screen" then "SCREEN CONTENT" else "USER MESSAGE") ++ ":\n"
  ++ strTake p.question 1500 ++ "\n\n"
  ++ "YOUR PREVIOUS ANSWER:\n" ++ strTake p.answer 2000 ++ "\n"

/-- The body of the transcript: the concatenated rendered turns. -/
def renderFollowUpBody (ps : List FollowUpPair) : String :=
  (ps.enum.map (fun ip => renderTurn ip.1 ip.2)).foldl (· ++ ·) ""

/-- The full rendered transcript bracketed by the sentinel markers
(part_001 lines 432-439). -/
def renderFollowUpContext (ps : List FollowUpPair) : String :=
  ("=== PREVIOUS CONVERSATION CONTEXT ===\n" ++ renderFollowUpBody ps)
    ++ "\n=== END PREVIOUS CONTEXT ===\n"

/-- `getFollowUpContext` (part_001 lines 392-442): empty string when there
are no relevant events or no pairs, otherwise the rendered transcript of the
last `maxPairs` pairs. -/
def getFollowUpContext (mem : List SMEvent) (maxPairs : Nat) : String :=
  if mem.filter isRelevantFollowUp = [] then ""
  else if followUpPairsAux none (mem.filter isRelevantFollowUp) = [] then ""
  else renderFollowUpContext
    (jsSliceLast (followUpPairsAux none (mem.filter isRelevantFollowUp)) maxPairs)

/-! ## Question classifier (chat-window.js lines 1590-1635) -/

/-- JS regex word character class `\w`. -/
def isWordChar (c : Char) : Bool := c.isAlpha || c.isDigit || c = '_'

/-- A word boundary `\b` adjacent to a word character of the literal: the
neighbouring character (if any) is not a word character. -/
def boundaryAt (neighbour : Option Char) : Bool :=
  match neighbour with
  | none => true
  | some c => !isWordChar c

/-- Does `needle` occur literally at the head of `hay`? -/
def charsHaveLead : List Char → List Char → Bool
  | [], _ => true
  | _ :: _, [] => false
  | n :: ns, h :: hs => n = h && charsHaveLead ns hs

/-- One regex alternative matched at the current position: a literal with
optional leading and trailing `\b` (every classifier alternative starts, and
where a trailing boundary is required also ends, with a word character). -/
def altMatchesAt (reqL reqR : Bool) (alt : List Char) (prev : Option Char)
    (hay : List Char) : Bool :=
  (!reqL || boundaryAt prev) && charsHaveLead alt hay &&
  (!reqR || boundaryAt ((hay.drop alt.length).head?))

/-- `RegExp.test` for an alternation of literals: scan every position of
`hay`, tracking the previous character for the boundary check. -/
def scanAlts (reqL reqR : Bool) (alts : List (List Char)) :
    Option Char → List Char → Bool
  | prev, hay =>
    alts.any (fun a => altMatchesAt reqL reqR a prev hay) ||
    match hay with
    | [] => false
    | c :: rest => scanAlts reqL reqR alts (some c) rest

/-- `RegExp.test` for `\bw\b.*\(`: a whole-word occurrence of `w` followed
later on the same line (`.` matches no line terminator) by `(`. -/
def scanWordThenParen (w : List Char) : Option Char → List Char → Bool
  | prev, hay =>
    (altMatchesAt true true w prev hay &&
      ((hay.drop w.length).takeWhile (fun c => c ≠ '\n' && c ≠ '\r')).contains '(') ||
    match hay with
    | [] => false
    | c :: rest => scanWordThenParen w (some c) rest

/-- One classifier pattern: an alternation of literal alternatives with
optional leading/trailing word boundaries, or the special seventh coding
pattern (code fence, or a whole-word `int`/`void` followed by `(`). -/
inductive QPattern where
  | alts (reqL reqR : Bool) (alternatives : List String)
  | fenceOrCall
deriving DecidableEq

/-- `RegExp.test` of one classifier pattern against the already lower-cased
text (the classifier lower-cases before testing, so alternatives are written
lower-case; the source regexes carry no `g` flag, so `test` is a plain
stateless search). -/
def testPattern (p : QPattern) (s : String) : Bool :=
  match p with
  | .alts l r as => scanAlts l r (as.map String.data) none s.data
  | .fenceOrCall =>
    scanAlts false false [String.data "```"] none s.data ||
    scanWordThenParen ("int".data) none s.data ||
    scanWordThenParen ("void".data) none s.data

/-- The coding-indicator patterns (chat-window.js lines 1596-1604). -/
def codingPatterns : List QPattern :=
  [ .alts true false ["def ", "function ", "class ", "int ", "void ", "public ",
      "private ", "return ", "if (", "for (", "while ("],
    .alts true false ["input", "output", "example", "constraint", "leetcode",
      "hackerrank", "codechef", "codeforces"],
    .alts true true ["array", "string", "linked list", "binary tree", "graph",
      "matrix", "sort", "search"],
    .alts true false ["time complexity", "space complexity", "o(n)", "o(log",
      "o(1)", "o(n^2"],
    .alts true false ["two pointer", "sliding window", "dynamic programming",
      "backtracking", "bfs", "dfs", "greedy"],
    .alts false false ["=>", "\x7b\x7d", "[]", "==", "!=", "++", "--", "<<", ">>"],
    .fenceOrCall ]

/-- The design-indicator patterns (chat-window.js lines 1607-1615). -/
def designPatterns : List QPattern :=
  [ .alts true false ["design", "architect", "system", "scalab", "microservice",
      "monolith", "distributed"],
    .alts true false ["load balanc", "api gateway", "database", "cache", "cdn",
      "message queue", "kafka"],
    .alts true false ["availability", "consistency", "partition", "replication",
      "shard"],
    .alts true false ["user", "request", "server", "client", "service", "endpoint",
      "traffic", "qps", "latency"],
    .alts true false ["storage", "bandwidth", "throughput", "bottleneck",
      "single point of failure"],
    .alts true false ["rest", "graphql", "grpc", "websocket", "http", "tcp"],
    .alts true false ["redis", "memcached", "postgresql", "mongodb", "dynamodb",
      "cassandra", "elasticsearch"] ]

/-- The number of distinct coding patterns hitting the lower-cased text
(each pattern contributes at most one point regardless of match count). -/
def codingHits (text : String) : Nat :=
  (codingPatterns.filter (fun p => testPattern p text)).length

/-- The number of distinct design patterns hitting the lower-cased text. -/
def designHits (text : String) : Nat :=
  (designPatterns.filter (fun p => testPattern p text)).length

/-- The +2 coding bias for the coding-flavoured skill modes
(chat-window.js line 1629). -/
def codingBias (activeSkill : String) : Nat :=
  if activeSkill = "dsa" ∨ activeSkill = "technical-screening" then 2 else 0

/-- The +2 design bias for the `system-design` mode (line 1630). -/
def designBias (activeSkill : String) : Nat :=
  if activeSkill = "system-design" then 2 else 0

/-- `detectQuestionType` (chat-window.js lines 1590-1635): a falsy (empty)
text short-circuits to the mode-derived default; otherwise coding wins on a
strictly greater biased score, design wins otherwise (ties included). -/
def detectQuestionType (extractedText activeSkill : String) : String :=
  if extractedText = "" then
    (if activeSkill = "system-design" then "design" else "coding")
  else
    if codingHits (jsToLower extractedText) + codingBias activeSkill
        > designHits (jsToLower extractedText) + designBias activeSkill
    then "coding" else "design"

/-! ## Structured response splitter (chat-window.js lines 1821-1840)

The two header regexes (lines 1827-1828) quantify only single-character
classes, so their backtracking is modelled exactly: each greedy quantifier
prefers its maximal run and gives back one character at a time, and the lazy
capture grows until its lookahead (or the end of input) succeeds.  Where the
follow set of a quantifier is disjoint from its class the maximal run is
deterministic and no give-back can occur. -/

/-- Separator class `[\s—\-:]` of the Part-header regexes. -/
def isSepChar (c : Char) : Bool := isJsSpace c || c = '—' || c = '-' || c = ':'

/-- Line terminator class `[\r\n]`. -/
def isNLChar (c : Char) : Bool := c = '\r' || c = '\n'

/-- The optional `#{1,3}\s*` prefix group of the header: with a `#` run
longer than three every backtracking branch fails (the next character can be
neither `#` nor `*`/`P`), otherwise the whole run and the following
whitespace are consumed. -/
def matchHashGroup (cs : List Char) : Option (List Char) :=
  let n := (cs.takeWhile (fun c => c = '#')).length
  if n = 0 then some cs
  else if n ≤ 3 then some ((cs.drop n).dropWhile isJsSpace)
  else none

/-- The strict `(?:\*{1,2})?` group directly before a literal letter: a star
run longer than two fails every branch. -/
def matchStarsStrict (cs : List Char) : Option (List Char) :=
  let n := (cs.takeWhile (fun c => c = '*')).length
  if n ≤ 2 then some (cs.drop n) else none

/-- The lax `(?:\*{1,2})?` group after the part letter: greedily consume up
to two stars (any excess is absorbed later by `[^\r\n]*`). -/
def matchStarsLax (cs : List Char) : List Char :=
  cs.drop (min 2 (cs.takeWhile (fun c => c = '*')).length)

/-- Case-insensitive literal match (the regexes carry the `i` flag); the
pattern is given lower-case. -/
def matchCI : List Char → List Char → Option (List Char)
  | [], cs => some cs
  | _ :: _, [] => none
  | p :: ps, c :: cs => if c.toLower = p then matchCI ps cs else none

/-- One backtracking attempt of the header tail `[\s—\-:]*[^\r\n]*[\r\n]+`
with the separator class consuming exactly `a` characters: `[^\r\n]*`
absorbs the rest of the line, at least one line terminator must follow, and
the greedy `[\r\n]+` swallows the whole terminator run (the lazy capture
after it can never fail, so nothing is ever given back to it). -/
def headerTailAt (cs : List Char) (a : Nat) : Option (List Char) :=
  let rest := cs.drop a
  let post := rest.drop ((rest.takeWhile (fun c => !isNLChar c)).length)
  match post with
  | [] => none
  | _ :: _ => some (post.dropWhile isNLChar)

/-- Backtracking over the separator-run length, longest first (the greedy
preference order of `[\s—\-:]*`). -/
def headerTailFrom (cs : List Char) : Nat → Option (List Char)
  | 0 => headerTailAt cs 0
  | a + 1 =>
    match headerTailAt cs (a + 1) with
    | some r => some r
    | none => headerTailFrom cs a

/-- The header tail after the part letter:
`(?:\*{1,2})?[\s—\-:]*[^\r\n]*[\r\n]+`, returning the body position. -/
def matchHeaderTail (cs : List Char) : Option (List Char) :=
  headerTailFrom (matchStarsLax cs) (((matchStarsLax cs).takeWhile isSepChar).length)

/-- A whole `Part`-`letter` header matched at the current position (the
regex after its `(?:^|\n)` anchor):
`(?:#{1,3}\s*)?(?:\*{1,2})?Part\s*<letter>` followed by the header tail. -/
def matchPartHeader (letter : Char) (cs : List Char) : Option (List Char) :=
  match matchHashGroup cs with
  | none => none
  | some cs1 =>
    match matchStarsStrict cs1 with
    | none => none
    | some cs2 =>
      match matchCI ['p', 'a', 'r', 't'] cs2 with
      | none => none
      | some cs3 =>
        match matchCI [letter] (cs3.dropWhile isJsSpace) with
        | none => none
        | some cs4 => matchHeaderTail cs4

/-- Scan the `(?:^|\n)` anchor positions after the start, left to right. -/
def scanPartHeaderAux (letter : Char) : List Char → Option (List Char)
  | [] => none
  | c :: rest =>
    if c = '\n' then
      match matchPartHeader letter rest with
      | some body => some body
      | none => scanPartHeaderAux letter rest
    else scanPartHeaderAux letter rest

/-- Leftmost match of a Part header: try the `^` anchor first, then after
every newline. -/
def scanPartHeader (letter : Char) (cs : List Char) : Option (List Char) :=
  match matchPartHeader letter cs with
  | some body => some body
  | none => scanPartHeaderAux letter cs

/-- The lookahead `(?=(?:#{0,3}\s*)?(?:\*{1,2})?Part\s*B|$)` stopping the
lazy Part-A capture (its `$` alternative is the caller reaching the end of
input).  The `#{0,3}` group admits zero hashes, so the lookahead may start
by consuming plain whitespace. -/
def lookaheadPartB (cs : List Char) : Bool :=
  let n := (cs.takeWhile (fun c => c = '#')).length
  if n > 3 then false
  else
    match matchStarsStrict ((cs.drop n).dropWhile isJsSpace) with
    | none => false
    | some cs2 =>
      match matchCI ['p', 'a', 'r', 't'] cs2 with
      | none => false
      | some cs3 =>
        match (cs3.dropWhile isJsSpace).head? with
        | some c => c.toLower = 'b'
        | none => false

/-- The lazy capture `([\s\S]*?)` of the Part-A regex: the characters up to
the first position where the Part-B lookahead succeeds, or all of them. -/
def captureUntilPartB : List Char → List Char
  | [] => []
  | cs@(c :: rest) => if lookaheadPartB cs then [] else c :: captureUntilPartB rest

/-- The two-part splitting step of
`processScreenCaptureWithStructuredResponse` (chat-window.js lines
1826-1840): run both header regexes, trim the captures, and when both parts
come out (JS-falsy) empty make the whole response the second part. -/
def splitStructuredResponse (response : String) : String × String :=
  let partA :=
    match scanPartHeader 'a' response.data with
    | some body => jsTrim (String.mk (captureUntilPartB body))
    | none => ""
  let partB :=
    match scanPartHeader 'b' response.data with
    | some body => jsTrim (String.mk body)
    | none => ""
  if partA = "" ∧ partB = "" then ("", response) else (partA, partB)

/-! ## LLM service model (chat-window.js, class LLMService)

The Groq network client is abstracted as oracle functions: a chat-completion
oracle mapping the built message list and the attempt number to `some text`
(a completed call, where empty text is falsy and throws
`Empty response from Groq`) or `none` (a thrown request error), and a
vision-extraction oracle mapping the candidate model name to the call
outcome.  Image base64 encoding/resizing (lines 1669-1694) is I/O whose only
effect is the payload sent to the vision calls, so it is absorbed into the
vision oracle.  Generation-config plumbing (temperature/token caps) only
shapes the request and is likewise absorbed. -/

/-- The interview-assistant style prompt (chat-window.js lines 1152-1173, repeated verbatim at lines 1540-1561). -/
def interviewAssistantPrompt : String :=
  "You are a technical interview assistant that helps candidates understand and explain tec"
    ++ "hnical concepts clearly and confidently. Your main goal is to make every answer feel lik"
    ++ "e a natural spoken explanation that a strong engineer would give to a friend, while stil"
    ++ "l being precise and technically correct.\n\nAlways structure every technical answer in t"
    ++ "his exact three-part format, with the headings written exactly as shown:\n\nDefinition:\n"
    ++ "\nExplain the concept in plain, everyday language in a maximum of 2 short sentences. Avo"
    ++ "id jargon, buzzwords, and complex terms as much as possible. Write it the way you would "
    ++ "actually say it out loud in a casual but professional conversation. If the term itself i"
    ++ "s technical, briefly rephrase it in simpler words instead of just repeating it.\n\nHow i"
    ++ "t works:\n\nDescribe what happens step by step in 2–3 simple sentences. Focus on the pra"
    ++ "ctical flow of \"first this happens, then that happens\" rather than deep theory or form"
    ++ "al definitions. Use clear, human-friendly language and everyday analogies only when they"
    ++ " genuinely make the idea easier to picture. Prefer short sentences and direct verbs (\"i"
    ++ "t checks…\", \"it stores…\", \"it calls…\", \"it compares…\"). If code or math is involv"
    ++ "ed, describe the idea in words first; only then, optionally mention the key operation in"
    ++ " simple terms.\n\nReal-world example:\n\nGive exactly one concrete, relatable example th"
    ++ "at clearly shows where or how this concept shows up in real life. Make the example easy "
    ++ "to imagine (e.g., a mobile app, website feature, API call, system behavior, or everyday "
    ++ "digital product). Use a warm, confident tone, as if you are explaining to a friend who i"
    ++ "s smart but maybe new to the topic. Keep the example short (1–2 sentences) and focused o"
    ++ "n one use case, not a list of use cases.\n\nStyle and tone guidelines:\nWrite in spoken-"
    ++ "English style, as if you are talking in a mock interview or mentoring session. Use clear"
    ++ ", simple words and avoid unnecessary technical terms, deep theory, or academic phrasing "
    ++ "unless the question explicitly asks for them. When you must use a technical term, briefl"
    ++ "y anchor it in simple language right away. Prefer short, direct sentences over long, com"
    ++ "plex ones. Sound confident and calm. Avoid filler phrases like \"basically\", \"like\", "
    ++ "\"sort of\", or \"kind of\" unless they genuinely improve clarity. Do not apologize or h"
    ++ "edge excessively. If the concept is ambiguous in industry, mention that briefly and then"
    ++ " give the most common understanding.\n\nConsistency and constraints:\nAlways include all"
    ++ " three sections—\"Definition:\", \"How it works:\", and \"Real-world example:\"—even if "
    ++ "the user\x27s question is very short. Keep the total answer concise: usually 5–8 sentenc"
    ++ "es in total across all three sections. Do not add extra sections, bullet lists, or headi"
    ++ "ngs beyond these three unless the user explicitly asks for more detail or a different fo"
    ++ "rmat. If the question mentions multiple concepts, explain the main one the question clea"
    ++ "rly focuses on, or if the question clearly needs more than one concept, repeat the same "
    ++ "three-part structure for each concept in order. If the question is ambiguous, briefly ch"
    ++ "oose the most common interpretation and proceed.\n"

/-- The `short` complexity instruction (line 1177). -/
def complexityShort : String :=
  "\n\nRESPONSE FORMAT: You are whispering a quick hint. Give a single concise sentence — n"
    ++ "o markdown, no bullets. Maximum 15 words."

/-- The tail of the `medium` complexity instruction after the interview-assistant prompt (line 1178). -/
def complexityMediumTail : String :=
  "\n\nRESPONSE FORMAT: Give 2-4 natural sentences following the Definition / How it works "
    ++ "/ Real-world example format — no markdown, no bullets."

/-- The tail of the `long` complexity instruction after the interview-assistant prompt (line 1179). -/
def complexityLongTail : String :=
  "\n\nRESPONSE FORMAT: Use markdown formatting and follow the three-part structure (Defini"
    ++ "tion, How it works, Real-world example) for each concept covered. Be thorough but focuse"
    ++ "d."

/-- The built-in `system-design` focus areas (line 1567). -/
def focusSystemDesign : String :=
  "- Scalability patterns, load balancers, database choices, caching strategies, CAP theore"
    ++ "m, microservices, message queues, consistency models, rate limiting, sharding"

/-- The built-in `technical-screening` focus areas (line 1569). -/
def focusTechScreening : String :=
  "- Algorithm optimization, data structure selection, time/space complexity, edge cases, c"
    ++ "ode correctness, design patterns"

/-- The built-in default (dsa) focus areas (line 1570). -/
def focusDsa : String :=
  "- Data structures, algorithms, optimal complexity, clean implementations"

/-- The built-in structured design prompt (lines 1768-1772). -/
def builtinDesignPrompt : String :=
  "Analyze this content from a system design interview. Respond in two parts:\n## Part A — "
    ++ "What to Say to the Interviewer\nBulleted list of what to say step by step: clarify requi"
    ++ "rements, define scope, high-level design, deep dive, trade-offs.\n## Part B — Solution A"
    ++ "rchitecture\nDetailed architecture breakdown with components, data flow, scaling strateg"
    ++ "y, and trade-offs."

/-- The built-in structured coding prompt (lines 1774-1778). -/
def builtinCodingPrompt : String :=
  "Analyze this content from a coding/DSA interview. Respond in two parts:\n## Part A — Wha"
    ++ "t to Say to the Interviewer\nBulleted list of what to say: restate problem, clarify edge"
    ++ " cases, identify pattern, explain approach, state complexity.\n## Part B — Solution Code"
    ++ " & Explanation\nOptimal solution code with approach explanation and complexity analysis."

/-- The canned `system-design` fallback response (line 1888). -/
def fallbackDesignText : String :=
  "Consider the scalability implications here. Think about read vs write patterns, caching "
    ++ "layers, and whether you need strong consistency or eventual consistency."

/-- The canned `technical-screening` fallback response (line 1890). -/
def fallbackScreeningText : String :=
  "Think about the time complexity of your approach. Is there a way to optimize with a diff"
    ++ "erent data structure like a hash map or a heap?"

/-- The canned default (dsa) fallback response (line 1892). -/
def fallbackDsaText : String :=
  "Let me think about this problem. Consider the pattern — is it a sliding window, two poin"
    ++ "ters, or dynamic programming approach?"

/-- The follow-up note of `processTextWithSkill` (line 1208). -/
def followUpTextNote : String :=
  "\n\nIMPORTANT: This is a FOLLOW-UP message. Build on your previous answers — do NOT repe"
    ++ "at yourself."

/-- The follow-up note of `processTranscriptionWithIntelligentResponse` (line 1351). -/
def followUpVoiceNote : String :=
  "\n\nIMPORTANT: This is a FOLLOW-UP message. The user\x27s previous questions/statements "
    ++ "and your answers are provided below. Build on your previous answers — do NOT repeat your"
    ++ "self. Reference and extend the prior discussion."

/-- The follow-up note of `processScreenCaptureWithStructuredResponse` (line 1790). -/
def followUpScreenNote : String :=
  "\n\nIMPORTANT: This is a FOLLOW-UP to a previous problem. The user\x27s previous questio"
    ++ "ns and your answers are provided below the context separator. Build on your previous ans"
    ++ "wers — do NOT repeat what you already said. Reference and extend the prior discussion."

/-- One chat-completion message. -/
structure ChatMsg where
  role : String
  content : String
deriving DecidableEq

/-- Replace the OCR label by `[Screen Content]: ` for cleaner context
(`formatSessionMemory`, lines 1475-1477; regex `/^Screenshot captured:\\s*/i`). -/
def replaceScreenshotLabel (content : String) : String :=
  if (content.data.take "screenshot captured:".data.length).map Char.toLower
      = "screenshot captured:".data then
    "[Screen Content]: "
      ++ String.mk ((content.data.drop "screenshot captured:".data.length).dropWhile isJsSpace)
  else content

/-- `formatSessionMemory` (lines 1456-1481): keep events with truthy role and
content, take the last 20, map OCR captures and user events to the `user`
role and model responses to `assistant`, all else to `system`. -/
def formatSessionMemory (sessionMemory : List SMEvent) : List ChatMsg :=
  (((sessionMemory.filter (fun e => e.role ≠ "" && e.content ≠ "")).drop
      ((sessionMemory.filter (fun e => e.role ≠ "" && e.content ≠ "")).length - 20)).map
    (fun e =>
      { role :=
          if e.role = "model" then "assistant"
          else if e.role = "user" ∨ (e.role = "system" ∧ e.action = "ocr_capture") then "user"
          else "system",
        content :=
          if e.action = "ocr_capture" then replaceScreenshotLabel e.content
          else e.content }))

/-- `buildMessages` (lines 1437-1449). -/
def buildMessages (systemPrompt userText : String) (sessionMemory : List SMEvent) :
    List ChatMsg :=
  ({ role := "system", content := systemPrompt } :: formatSessionMemory sessionMemory)
    ++ [{ role := "user", content := userText }]

/-- `buildSystemPrompt` (lines 1139-1189): the skill prompt (empty when the
loader fails), the complexity instruction layer (`medium` as default), and
the optional programming-language constraint. -/
def buildSystemPrompt (loader : String → Option String) (activeSkill complexity : String)
    (programmingLanguage : Option String) : String :=
  let basePrompt := match loader activeSkill with
    | some p => p
    | none => ""
  let withComplexity := basePrompt ++
    (if complexity = "short" then complexityShort
     else if complexity = "medium" then
       "\n\n" ++ interviewAssistantPrompt ++ complexityMediumTail
     else if complexity = "long" then
       "\n\n" ++ interviewAssistantPrompt ++ complexityLongTail
     else "\n\n" ++ interviewAssistantPrompt ++ complexityMediumTail)
  match programmingLanguage with
  | some lang => withComplexity ++ "\n\nWhen providing code, use " ++ lang ++ " only."
  | none => withComplexity

/-- `getCopilotWhisperPrompt` (lines 1527-1582): the interview-assistant
prompt plus either the loaded `copilot-whisper` file prompt or the built-in
per-skill focus areas, and the optional language constraint. -/
def getCopilotWhisperPrompt (loader : String → Option String) (activeSkill : String)
    (programmingLanguage : Option String) : String :=
  let filePrompt := match loader "copilot-whisper" with
    | some p => p
    | none => ""
  let prompt :=
    if filePrompt = "" then
      interviewAssistantPrompt ++ "\nFOCUS AREAS for " ++ activeSkill ++ ":\n"
        ++ (if activeSkill = "system-design" then focusSystemDesign
            else if activeSkill = "technical-screening" then focusTechScreening
            else focusDsa)
    else interviewAssistantPrompt ++ "\n\n" ++ filePrompt
  match programmingLanguage with
  | some lang => prompt ++ "\n\nIf code is needed, use " ++ lang ++ " only."
  | none => prompt

/-- The observable outcome of `executeRequest`: the returned text (`none`
when the last error is re-thrown), the number of attempts made, and the
backoff delays awaited between tries. -/
structure ExecOutcome where
  result : Option String
  attempts : Nat
  delays : List Nat
deriving DecidableEq

/-- The retry loop of `executeRequest` with `fuel` further attempts allowed
after the current one: a falsy (empty) completion content throws
`Empty response from Groq`, a failed attempt with fuel left awaits
`1000 * attempt` milliseconds (line 1516) and retries. -/
def executeRequestAux (oracle : Nat → Option String) : Nat → Nat → ExecOutcome
  | fuel, attempt =>
    match oracle attempt with
    | some t =>
      if t = "" then
        match fuel with
        | 0 => { result := none, attempts := attempt, delays := [] }
        | f + 1 =>
          let o := executeRequestAux oracle f (attempt + 1)
          { o with delays := 1000 * attempt :: o.delays }
      else { result := some t, attempts := attempt, delays := [] }
    | none =>
      match fuel with
      | 0 => { result := none, attempts := attempt, delays := [] }
      | f + 1 =>
        let o := executeRequestAux oracle f (attempt + 1)
        { o with delays := 1000 * attempt :: o.delays }

/-- `executeRequest` (lines 1486-1522): up to `maxRetries`
(`config.llm.groq.maxRetries`, 3) attempts against the single configured
chat model with backoff `1000 * attempt` between tries; no iteration over
candidate models.  With `maxRetries = 0` the loop never runs and the
(undefined) last error is thrown. -/
def executeRequest (oracle : Nat → Option String) (maxRetries : Nat) : ExecOutcome :=
  match maxRetries with
  | 0 => { result := none, attempts := 0, delays := [] }
  | n + 1 => executeRequestAux oracle n 1

/-- The vision model candidates (lines 1697-1701), in preference order. -/
def visionModels : List String :=
  ["meta-llama/llama-4-scout-17b-16e-instruct", "llama-3.2-11b-vision-preview",
   "llama-3.2-90b-vision-preview"]

/-- The vision-extraction fallback loop (lines 1714-1747): each candidate
model is tried in order with exactly one call; a completed call counts as
success even with empty content (`|| \x27\x27`), a thrown error moves on to the
next candidate.  Returns the outcome (extracted text and model used) and the
list of models actually called. -/
def tryVisionModels (oracle : String → Option String) :
    List String → Option (String × String) × List String
  | [] => (none, [])
  | m :: rest =>
    match oracle m with
    | some content => (some (content, m), [m])
    | none =>
      let o := tryVisionModels oracle rest
      (o.1, m :: o.2)

/-- The shape of the fallback response object (lines 1883-1909). -/
structure FallbackResponse where
  response : String
  partA : String
  partB : String
  detectedType : String
  extractedText : String
  processingTime : Nat
  model : String
  skill : String
  usedFallback : Bool
  isStructuredResponse : Bool
deriving DecidableEq

/-- `generateFallbackResponse` (lines 1883-1909): the canned, skill-aware
response used whenever the backend is unavailable or a pipeline fails. -/
def generateFallbackResponse (text activeSkill : String) : FallbackResponse :=
  { response :=
      if activeSkill = "system-design" then fallbackDesignText
      else if activeSkill = "technical-screening" then fallbackScreeningText
      else fallbackDsaText,
    partA := "", partB := "",
    detectedType := if activeSkill = "system-design" then "design" else "coding",
    extractedText := text,
    processingTime := 0, model := "fallback", skill := activeSkill,
    usedFallback := true, isStructuredResponse := false }

/-- The result of one orchestration entry point, paired by each entry point
with the number of network calls it made. -/
inductive ProcessOutcome where
  | fallback (f : FallbackResponse)
  | textSuccess (response : String) (model skill complexity : String) (isFollowUp : Bool)
  | copilotSuccess (response : String) (model skill : String) (isFollowUp : Bool)
  | structuredSuccess (response partA partB detectedType extractedText : String)
      (model visionModel skill : String) (isFollowUp : Bool)
deriving DecidableEq

/-- `processTextWithSkill` (lines 1194-1255): the uninitialized-client guard
short-circuits to the canned fallback before any other work; otherwise the
prompt is built, follow-up context injected when requested, the request
executed with retries, and any thrown error caught into the fallback.
Returns the outcome and the number of network calls made. -/
def processTextWithSkill (isInitialized : Bool) (loader : String → Option String)
    (oracle : List ChatMsg → Nat → Option String) (maxRetries : Nat) (chatModel : String)
    (managerMem : List SMEvent) (text activeSkill : String) (sessionMemory : List SMEvent)
    (programmingLanguage : Option String) (complexity : String) (isFollowUp : Bool) :
    ProcessOutcome × Nat :=
  if !isInitialized then (.fallback (generateFallbackResponse text activeSkill), 0)
  else
    let systemPrompt0 := buildSystemPrompt loader activeSkill complexity programmingLanguage
    let systemPrompt := if isFollowUp then systemPrompt0 ++ followUpTextNote else systemPrompt0
    let userMessage :=
      if isFollowUp then
        (if getFollowUpContext managerMem 3 = "" then text
         else getFollowUpContext managerMem 3
           ++ "\n\nNEW MESSAGE (respond to this, building on context above):\n" ++ text)
      else text
    let ex := executeRequest (oracle (buildMessages systemPrompt userMessage sessionMemory))
      maxRetries
    match ex.result with
    | some response =>
      (.textSuccess response chatModel activeSkill complexity isFollowUp, ex.attempts)
    | none => (.fallback (generateFallbackResponse text activeSkill), ex.attempts)

/-- `processTranscriptionWithIntelligentResponse` (lines 1337-1406): same
guard and retry shape around the co-pilot whisper prompt. -/
def processTranscriptionWithIntelligentResponse (isInitialized : Bool)
    (loader : String → Option String) (oracle : List ChatMsg → Nat → Option String)
    (maxRetries : Nat) (chatModel : String) (managerMem : List SMEvent)
    (text activeSkill : String) (sessionMemory : List SMEvent)
    (programmingLanguage : Option String) (isFollowUp : Bool) : ProcessOutcome × Nat :=
  if !isInitialized then (.fallback (generateFallbackResponse text activeSkill), 0)
  else
    let copilotPrompt0 := getCopilotWhisperPrompt loader activeSkill programmingLanguage
    let copilotPrompt :=
      if isFollowUp then copilotPrompt0 ++ followUpVoiceNote else copilotPrompt0
    let userMessage :=
      if isFollowUp then
        (if getFollowUpContext managerMem 3 = "" then text
         else getFollowUpContext managerMem 3
           ++ "\n\nNEW USER MESSAGE (respond to this, building on context above):\n" ++ text)
      else text
    let ex := executeRequest (oracle (buildMessages copilotPrompt userMessage sessionMemory))
      maxRetries
    match ex.result with
    | some response => (.copilotSuccess response chatModel activeSkill isFollowUp, ex.attempts)
    | none => (.fallback (generateFallbackResponse text activeSkill), ex.attempts)

/-- `processScreenCaptureWithStructuredResponse` (lines 1650-1878): the
uninitialized-client guard, then the vision-extraction fallback loop (all
candidates failing throws into the catch and the canned fallback), question
classification, structured-prompt selection with built-in fallback prompts,
follow-up injection, retried generation, and the two-part split. -/
def processScreenCaptureWithStructuredResponse (isInitialized : Bool)
    (loader : String → Option String) (visionOracle : String → Option String)
    (oracle : List ChatMsg → Nat → Option String) (maxRetries : Nat) (chatModel : String)
    (managerMem : List SMEvent) (activeSkill : String) (sessionMemory : List SMEvent)
    (programmingLanguage : Option String) (isFollowUp : Bool) : ProcessOutcome × Nat :=
  if !isInitialized then
    (.fallback (generateFallbackResponse "Image analysis requested" activeSkill), 0)
  else
    match tryVisionModels visionOracle visionModels with
    | (none, called) =>
      (.fallback (generateFallbackResponse "Image analysis failed" activeSkill),
       called.length)
    | (some (extractedText, visionModel), called) =>
      let detectedType := detectQuestionType extractedText activeSkill
      let promptName :=
        if detectedType = "design" then "screen-capture-design" else "screen-capture-coding"
      let loaded := match loader promptName with
        | some p => p
        | none => ""
      let structuredPrompt0 :=
        if loaded = "" then
          (if detectedType = "design" then builtinDesignPrompt else builtinCodingPrompt)
        else loaded
      let structuredPrompt1 := match programmingLanguage with
        | some lang => structuredPrompt0 ++ "\n\nWhen providing code, use " ++ lang ++ " only."
        | none => structuredPrompt0
      let structuredPrompt :=
        if isFollowUp then structuredPrompt1 ++ followUpScreenNote else structuredPrompt1
      let userMessage :=
        if isFollowUp then
          (if getFollowUpContext managerMem 3 = "" then extractedText
           else getFollowUpContext managerMem 3
             ++ "\n\nNEW SCREEN CONTENT (answer this, building on context above):\n"
             ++ extractedText)
        else extractedText
      let memoryToUse := if isFollowUp then sessionMemory else []
      let ex := executeRequest
        (oracle (buildMessages structuredPrompt userMessage memoryToUse)) maxRetries
      match ex.result with
      | some response =>
        (.structuredSuccess response (splitStructuredResponse response).1
          (splitStructuredResponse response).2 detectedType extractedText chatModel
          visionModel activeSkill isFollowUp, called.length + ex.attempts)
      | none =>
        (.fallback (generateFallbackResponse "Image analysis failed" activeSkill),
         called.length + ex.attempts)

/-- A per-attempt outcome predicate: the attempt threw or returned a falsy
(empty) payload. -/
def attemptFails (r : Option String) : Prop := r = none ∨ r = some ""

/-! ## Concrete fixtures used by claim instantiations -/

/-- A concrete triple of identical system events, used to refute idempotence
of consolidation beyond the first pass. -/
def cexSysEvt : SMEvent :=
  { id := "evt_1", timestamp := 0, role := "system", content := "boot",
    action := "session_start", category := "system", metadata := [] }

/-- A second concrete system event with a different action, adjacent-distinct
from `cexSysEvt`. -/
def cexSysEvt2 : SMEvent :=
  { id := "evt_2", timestamp := 1, role := "system", content := "init",
    action := "skill_init", category := "system", metadata := [] }

/-- A fresh (in-window) event used in the C3 instantiation. -/
def c3FreshEvt : SMEvent :=
  { id := "fresh", timestamp := 19000000, role := "user", content := "recent",
    action := "chat_input", category := "interaction", metadata := [] }

/-- The surviving topic entry used in the C3 instantiation. -/
def c3FreshTopic : String × List TopicOccurrence :=
  ("redis", [ { content := "redis", timestamp := 19500000, relevance := 1 } ])

/-- Concrete session state used to instantiate the C3 theorem. -/
def c3State : SessionState :=
  { sessionMemory :=
      [ { id := "old", timestamp := 0, role := "user", content := "stale",
          action := "chat_input", category := "interaction", metadata := [] },
        { id := "init", timestamp := 0, role := "system", content := "Skill prompt loaded: dsa",
          action := "skill_init", category := "system", metadata := [] },
        c3FreshEvt ],
    topicTags :=
      [ ("cache", [ { content := "cache", timestamp := 0, relevance := 1 } ]),
        c3FreshTopic ],
    maxSize := 1000, compressionThreshold := 500, maxDurationMinutes := 240,
    activeSkill := "system-design", sessionStartTime := some 0,
    sessionActive := true, sessionTimer := some 1 }

/-- A 4001-character text exceeding the OCR cap. -/
def c9LongText : String := String.mk (List.replicate 4001 'x')

/-- Truthiness of a loaded skill prompt: the loader succeeds with a
non-empty string. -/
def promptLoads (loader : String → Option String) (s : String) : Bool :=
  match loader s with
  | some p => decide (p ≠ "")
  | none => false

/-- A user question event used in the C7 instantiation. -/
def c7U (i : Nat) : SMEvent :=
  { id := "u" ++ toString i, timestamp := (i : Int) * 2, role := "user",
    content := "question " ++ toString i, action := "chat_input",
    category := "interaction", metadata := [] }

/-- A model answer event used in the C7 instantiation. -/
def c7M (i : Nat) : SMEvent :=
  { id := "m" ++ toString i, timestamp := (i : Int) * 2 + 1, role := "model",
    content := "answer " ++ toString i, action := "model_response",
    category := "ai", metadata := [] }

/-- Five alternating user/model exchanges, the spec test fixture for
`getFollowUpContext(3)`. -/
def c7Mem : List SMEvent :=
  [c7U 1, c7M 1, c7U 2, c7M 2, c7U 3, c7M 3, c7U 4, c7M 4, c7U 5, c7M 5]

/-- The C1 scenario oracle, per model and per attempt: the first vision
candidate always fails, the second succeeds only on its second attempt. -/
def c1AttemptOracle (m : String) (attempt : Nat) : Option String :=
  if m = "llama-3.2-11b-vision-preview" ∧ attempt ≥ 2 then some "extracted" else none

/-- The two-candidate list of the C1 scenario. -/
def c1Candidates : List String :=
  ["meta-llama/llama-4-scout-17b-16e-instruct", "llama-3.2-11b-vision-preview"]

/-- The single-model retry oracle of the C1 witness: the first attempt
throws, the second returns a payload. -/
def c1WOracle : Nat → Option String :=
  fun i => if i = 2 then some "ok" else none

/-- A two-model oracle where only the first candidate fails. -/
def c1W2Oracle : String → Option String :=
  fun m => if m = "m1" then none else some "text"

/-! ## Claim C2: consolidation idempotence -/

/-- A log with no adjacent pair of system-category events sharing an action
is a fixed point of `consolidateSimilarEvents`. -/
theorem consolidate_fixed_of_chain :
    ∀ l : List SMEvent,
      List.Chain'
        (fun a b => ¬(a.category = "system" ∧ b.category = "system" ∧ b.action = a.action)) l →
      consolidateSimilarEvents l = l
  | [], _ => rfl
  | [_], _ => rfl
  | e1 :: e2 :: rest, h => by
      rw [List.chain'_cons] at h
      unfold consolidateSimilarEvents
      rw [if_neg h.1, consolidate_fixed_of_chain (e2 :: rest) h.2]

/-- C2 counterexample: on a log of three identical system events the first
consolidation pass leaves two adjacent mergeable survivors, so a second pass
merges again — the log after two passes differs from the log after one. -/
theorem c2_consolidate_not_idempotent :
    consolidateSimilarEvents (consolidateSimilarEvents [cexSysEvt, cexSysEvt, cexSysEvt])
      ≠ consolidateSimilarEvents [cexSysEvt, cexSysEvt, cexSysEvt] := by
  decide

/-- C2 (amended): a single consolidation pass merges adjacent pairs of
system-category events with identical action, and the merged survivor keeps
the `system` category and the same action; hence three consecutive identical
system events leave exactly two survivors after one pass and a second pass
merges them further, so consolidation is not idempotent beyond the first
pass in general.  It performs no further merges exactly when no adjacent
mergeable pair remains: any log without an adjacent pair of system events
sharing an action is left unchanged. -/
theorem c2_consolidate_one_pass :
    (∀ l : List SMEvent,
        List.Chain'
          (fun a b => ¬(a.category = "system" ∧ b.category = "system" ∧ b.action = a.action)) l →
        consolidateSimilarEvents l = l)
    ∧ (∀ e : SMEvent, e.category = "system" →
        consolidateSimilarEvents [e, e, e] = [mergeConsolidated e, e]
        ∧ consolidateSimilarEvents [mergeConsolidated e, e]
            = [mergeConsolidated (mergeConsolidated e)]) := by
  refine ⟨consolidate_fixed_of_chain, fun e he => ⟨?_, ?_⟩⟩
  · show (if e.category = "system" ∧ e.category = "system" ∧ e.action = e.action then
        mergeConsolidated e :: consolidateSimilarEvents [e]
      else e :: consolidateSimilarEvents [e, e]) = [mergeConsolidated e, e]
    rw [if_pos ⟨he, he, rfl⟩]
    rfl
  · have hc : (mergeConsolidated e).category = e.category := rfl
    have ha : (mergeConsolidated e).action = e.action := rfl
    show (if (mergeConsolidated e).category = "system" ∧ e.category = "system"
            ∧ e.action = (mergeConsolidated e).action then
        mergeConsolidated (mergeConsolidated e) :: consolidateSimilarEvents []
      else mergeConsolidated e :: consolidateSimilarEvents [e])
      = [mergeConsolidated (mergeConsolidated e)]
    rw [if_pos ⟨hc.trans he, he, ha.symm⟩]
    rfl

/-- Concrete instantiation of `c2_consolidate_one_pass`: a two-event log with
no adjacent duplicate is fixed, and the triple of `cexSysEvt` behaves as
stated. -/
theorem c2_consolidate_one_pass_witness :
    (List.Chain'
        (fun a b : SMEvent =>
          ¬(a.category = "system" ∧ b.category = "system" ∧ b.action = a.action))
        [cexSysEvt, cexSysEvt2]
      ∧ consolidateSimilarEvents [cexSysEvt, cexSysEvt2] = [cexSysEvt, cexSysEvt2])
    ∧ (cexSysEvt.category = "system"
      ∧ consolidateSimilarEvents [cexSysEvt, cexSysEvt, cexSysEvt]
          = [mergeConsolidated cexSysEvt, cexSysEvt]
      ∧ consolidateSimilarEvents [mergeConsolidated cexSysEvt, cexSysEvt]
          = [mergeConsolidated (mergeConsolidated cexSysEvt)]) :=
  ⟨⟨List.chain'_cons.mpr ⟨by decide, List.chain'_singleton _⟩,
    c2_consolidate_one_pass.1 _
      (List.chain'_cons.mpr ⟨by decide, List.chain'_singleton _⟩)⟩,
   ⟨by decide, c2_consolidate_one_pass.2 cexSysEvt (by decide)⟩⟩

/-! ## Claim C3: eviction window invariant -/

/-- C3: after `evictExpiredEvents`, every surviving event is within the
retention window or is a retained `system`/`skill_init` event, every
surviving topic occurrence is within the window, and no topic with an empty
occurrence list remains. -/
theorem c3_evict_expired_window (st : SessionState) (now : Int) :
    (∀ e ∈ (evictExpiredEvents st now).sessionMemory,
      e.timestamp ≥ now - (st.maxDurationMinutes * 60000 : Nat)
        ∨ (e.category = "system" ∧ e.action = "skill_init"))
    ∧ (∀ p ∈ (evictExpiredEvents st now).topicTags,
        p.2 ≠ []
        ∧ ∀ o ∈ p.2, o.timestamp ≥ now - (st.maxDurationMinutes * 60000 : Nat)) := by
  have hcut : ((st.maxDurationMinutes * 60 * 1000 : Nat) : Int)
      = ((st.maxDurationMinutes * 60000 : Nat) : Int) := by
    push_cast
    ring
  constructor
  · intro e he
    simp only [evictExpiredEvents, List.mem_filter] at he
    obtain ⟨-, hp⟩ := he
    by_cases h : e.category = "system" ∧ e.action = "skill_init"
    · exact Or.inr h
    · rw [if_neg h] at hp
      have := of_decide_eq_true hp
      rw [hcut] at this
      exact Or.inl this
  · intro p hp
    simp only [evictExpiredEvents, List.mem_filter, List.mem_map] at hp
    obtain ⟨⟨q, -, rfl⟩, hne⟩ := hp
    refine ⟨of_decide_eq_true hne, fun o ho => ?_⟩
    simp only [List.mem_filter] at ho
    have := of_decide_eq_true ho.2
    rw [hcut] at this
    exact this

/-- Concrete instantiation of `c3_evict_expired_window` at `now = 20000000`
(cutoff `5600000`): the fresh event survives inside the window, the `redis`
topic keeps its fresh occurrence, and the stale `cache` topic is gone. -/
theorem c3_evict_expired_window_witness :
    c3FreshEvt ∈ (evictExpiredEvents c3State 20000000).sessionMemory
    ∧ (c3FreshEvt.timestamp ≥ 20000000 - (c3State.maxDurationMinutes * 60000 : Nat)
        ∨ (c3FreshEvt.category = "system" ∧ c3FreshEvt.action = "skill_init"))
    ∧ (c3FreshTopic ∈ (evictExpiredEvents c3State 20000000).topicTags
    ∧ (c3FreshTopic.2 ≠ []
        ∧ ∀ o ∈ c3FreshTopic.2,
            o.timestamp ≥ 20000000 - (c3State.maxDurationMinutes * 60000 : Nat))) :=
  ⟨by decide,
   (c3_evict_expired_window c3State 20000000).1 c3FreshEvt (by decide),
   by decide,
   (c3_evict_expired_window c3State 20000000).2 c3FreshTopic (by decide)⟩

/-! ## Claim C4: maintenance size bound and front truncation -/

/-- C4: provided `compressionThreshold ≤ maxSize`, the memory length never
exceeds `maxSize` after `performMaintenanceIfNeeded`, and whenever the log
changes it is a suffix of the evicted-and-consolidated log — i.e. truncation
only ever removes the oldest events from the front, so the most recent
events survive. -/
theorem c4_maintenance_bound (st : SessionState) (now : Int)
    (h : st.compressionThreshold ≤ st.maxSize) :
    (performMaintenanceIfNeeded st now).sessionMemory.length ≤ st.maxSize
    ∧ ((performMaintenanceIfNeeded st now).sessionMemory = st.sessionMemory
       ∨ (performMaintenanceIfNeeded st now).sessionMemory
           <:+ consolidateSimilarEvents (evictExpiredEvents st now).sessionMemory) := by
  unfold performMaintenanceIfNeeded
  by_cases hlen : st.sessionMemory.length > st.compressionThreshold
  · rw [if_pos hlen]
    unfold performMaintenance
    by_cases hbig :
        (consolidateSimilarEvents (evictExpiredEvents st now).sessionMemory).length > st.maxSize
    · rw [if_pos hbig]
      refine ⟨?_, Or.inr (List.drop_suffix _ _)⟩
      simp only [List.length_drop]
      omega
    · rw [if_neg hbig]
      refine ⟨?_, Or.inr (List.suffix_refl _)⟩
      show (consolidateSimilarEvents (evictExpiredEvents st now).sessionMemory).length
        ≤ st.maxSize
      omega
  · rw [if_neg hlen]
    exact ⟨by omega, Or.inl rfl⟩

/-- Concrete instantiation of `c4_maintenance_bound`: a state whose
`compressionThreshold` (500) is at most its `maxSize` (1000). -/
theorem c4_maintenance_bound_witness :
    c3State.compressionThreshold ≤ c3State.maxSize
    ∧ ((performMaintenanceIfNeeded c3State 20000000).sessionMemory.length ≤ c3State.maxSize
      ∧ ((performMaintenanceIfNeeded c3State 20000000).sessionMemory = c3State.sessionMemory
        ∨ (performMaintenanceIfNeeded c3State 20000000).sessionMemory
            <:+ consolidateSimilarEvents (evictExpiredEvents c3State 20000000).sessionMemory)) :=
  ⟨by decide, c4_maintenance_bound c3State 20000000 (by decide)⟩

/-! ## Claim C9: OCR content cap -/

/-- C9: the event created by `addOCREvent` stores
`"Screenshot captured: "` plus the extracted text, with the text payload
capped at 4000 characters and a `"..."` truncation marker appended exactly
when the extracted text exceeds the cap. -/
theorem c9_ocr_content_cap (matcher : String → List String) (st : SessionState)
    (now : Int) (newId : String) (text : String) (metadata : List (String × String)) :
    ((addOCREvent matcher st now newId text metadata).2.action = "ocr_capture")
    ∧ (text.length ≤ 4000 →
        (addOCREvent matcher st now newId text metadata).2.content
          = "Screenshot captured: " ++ text)
    ∧ (text.length > 4000 →
        (addOCREvent matcher st now newId text metadata).2.content
          = "Screenshot captured: " ++ (strTake text 4000 ++ "...")
        ∧ (strTake text 4000).length = 4000) := by
  refine ⟨rfl, fun hle => ?_, fun hgt => ⟨?_, ?_⟩⟩
  · show "Screenshot captured: "
        ++ (if text.length > 4000 then strTake text 4000 ++ "..." else text)
      = "Screenshot captured: " ++ text
    rw [if_neg (by omega)]
  · show "Screenshot captured: "
        ++ (if text.length > 4000 then strTake text 4000 ++ "..." else text)
      = "Screenshot captured: " ++ (strTake text 4000 ++ "...")
    rw [if_pos hgt]
  · show (text.data.take 4000).length = 4000
    rw [List.length_take]
    have : 4000 < text.data.length := hgt
    omega

/-- The long witness text measures 4001 characters. -/
theorem c9LongText_len : c9LongText.length = 4001 := by
  show (List.replicate 4001 'x').length = 4001
  rw [List.length_replicate]

/-- Concrete instantiation of `c9_ocr_content_cap` at a short text (kept
whole) and at a 4001-character text (truncated with the marker). -/
theorem c9_ocr_content_cap_witness :
    (("hi" : String).length ≤ 4000
      ∧ (addOCREvent (fun _ => []) c3State 20000000 "evt_w" "hi" []).2.content
          = "Screenshot captured: " ++ "hi")
    ∧ (c9LongText.length > 4000
      ∧ (addOCREvent (fun _ => []) c3State 20000000 "evt_w" c9LongText []).2.content
          = "Screenshot captured: " ++ (strTake c9LongText 4000 ++ "...")
      ∧ (strTake c9LongText 4000).length = 4000) :=
  ⟨⟨by decide,
    (c9_ocr_content_cap (fun _ => []) c3State 20000000 "evt_w" "hi" []).2.1 (by decide)⟩,
   ⟨by rw [c9LongText_len]; omega,
    ((c9_ocr_content_cap (fun _ => []) c3State 20000000 "evt_w" c9LongText []).2.2
      (by rw [c9LongText_len]; omega)).1,
    ((c9_ocr_content_cap (fun _ => []) c3State 20000000 "evt_w" c9LongText []).2.2
      (by rw [c9LongText_len]; omega)).2⟩⟩

/-! ## Claim C10: clear() restores the baseline state -/

/-- Helper: the number of seeded `skill_init` events equals the number of
configured skills whose prompt loads to a non-empty string. -/
theorem skillInitEvents_length (loader : String → Option String)
    (idOf : String → String) (now : Int) :
    ∀ skills : List String,
      (skillInitEvents loader idOf now skills).length
        = (skills.filter (promptLoads loader)).length
  | [] => rfl
  | s :: rest => by
      have ih := skillInitEvents_length loader idOf now rest
      simp only [skillInitEvents, List.filterMap_cons, List.filter_cons] at ih ⊢
      cases hl : loader s with
      | none => simpa [skillInitEvent1, promptLoads, hl] using ih
      | some p =>
        by_cases hp : p = ""
        · simpa [skillInitEvent1, promptLoads, hl, hp] using ih
        · simp [skillInitEvent1, promptLoads, hl, hp, ih]

/-- C10: after `clear`, the memory is re-seeded (not left empty) with exactly
one `skill_init` system event per configured skill whose prompt loads, the
topic index is empty, `sessionStartTime` is `null`, `sessionActive` is
`false`, and the pending auto-end timer is cancelled. -/
theorem c10_clear_baseline (st : SessionState) (loader : String → Option String)
    (idOf : String → String) (now : Int) (skills : List String) :
    (clear st loader idOf now skills).sessionMemory = skillInitEvents loader idOf now skills
    ∧ (clear st loader idOf now skills).topicTags = []
    ∧ (clear st loader idOf now skills).sessionStartTime = none
    ∧ (clear st loader idOf now skills).sessionActive = false
    ∧ (clear st loader idOf now skills).sessionTimer = none
    ∧ (skillInitEvents loader idOf now skills).length
        = (skills.filter (promptLoads loader)).length
    ∧ ∀ e ∈ skillInitEvents loader idOf now skills,
        e.role = "system" ∧ e.action = "skill_init" ∧ e.category = "system"
        ∧ ∃ skill ∈ skills, e.content = "Skill prompt loaded: " ++ skill := by
  refine ⟨rfl, rfl, rfl, rfl, rfl, skillInitEvents_length loader idOf now skills, ?_⟩
  intro e he
  simp only [skillInitEvents, List.mem_filterMap] at he
  obtain ⟨skill, hmem, hmk⟩ := he
  cases hl : loader skill with
  | none => simp [skillInitEvent1, hl] at hmk
  | some p =>
    by_cases hp : p = ""
    · simp [skillInitEvent1, hl, hp] at hmk
    · simp only [skillInitEvent1, hl, if_neg hp, Option.some.injEq] at hmk
      cases hmk
      exact ⟨rfl, rfl, rfl, skill, hmem, rfl⟩

/-- Concrete instantiation of `c10_clear_baseline`: with prompts available
only for `system-design` (and an empty, falsy prompt for
`technical-screening`), clearing re-seeds exactly that one baseline event. -/
theorem c10_clear_baseline_witness :
    ({ id := "id0", timestamp := 5, role := "system",
       content := "Skill prompt loaded: system-design", action := "skill_init",
       category := "system",
       metadata := [("skill", "system-design"), ("promptLength", "1")] } : SMEvent)
      ∈ skillInitEvents
          (fun s => if s = "system-design" then some "P"
                    else if s = "technical-screening" then some "" else none)
          (fun _ => "id0") 5 ["system-design", "technical-screening", "dsa"]
    ∧ (({ id := "id0", timestamp := 5, role := "system",
          content := "Skill prompt loaded: system-design", action := "skill_init",
          category := "system",
          metadata := [("skill", "system-design"), ("promptLength", "1")] } : SMEvent).role
            = "system"
      ∧ ({ id := "id0", timestamp := 5, role := "system",
           content := "Skill prompt loaded: system-design", action := "skill_init",
           category := "system",
           metadata := [("skill", "system-design"), ("promptLength", "1")] } : SMEvent).action
            = "skill_init"
      ∧ ({ id := "id0", timestamp := 5, role := "system",
           content := "Skill prompt loaded: system-design", action := "skill_init",
           category := "system",
           metadata := [("skill", "system-design"), ("promptLength", "1")] } : SMEvent).category
            = "system"
      ∧ ∃ skill ∈ ["system-design", "technical-screening", "dsa"],
          ({ id := "id0", timestamp := 5, role := "system",
             content := "Skill prompt loaded: system-design", action := "skill_init",
             category := "system",
             metadata := [("skill", "system-design"), ("promptLength", "1")] } : SMEvent).content
            = "Skill prompt loaded: " ++ skill) :=
  ⟨by decide,
   (c10_clear_baseline c3State
      (fun s => if s = "system-design" then some "P"
                else if s = "technical-screening" then some "" else none)
      (fun _ => "id0") 5 ["system-design", "technical-screening", "dsa"]).2.2.2.2.2.2 _
     (by decide)⟩

/-! ## Claim C7: follow-up context -/

/-- A question event (OCR capture, or user input) always becomes the current
question, overwriting whatever was pending before it. -/
theorem followUpPairsAux_question_step (e : SMEvent) (l : List SMEvent)
    (h : e.action = "ocr_capture" ∨ e.role = "user") (c : Option (String × String)) :
    followUpPairsAux c (e :: l)
      = followUpPairsAux
          (if e.action = "ocr_capture" then some (stripScreenshotLabel e.content, "screen")
           else some (e.content, "voice/chat")) l := by
  by_cases hocr : e.action = "ocr_capture"
  · simp only [followUpPairsAux, if_pos hocr]
  · have huser : e.role = "user" := h.resolve_left hocr
    simp only [followUpPairsAux, if_neg hocr, if_pos huser]

/-- C7: `getFollowUpContext` returns the empty string exactly when no pairs
exist; consecutive questions overwrite (an unanswered question is discarded,
not queued); only the last `maxPairs` pairs are rendered (the rendered slice
is a suffix of the pair list of length `min maxPairs total`); every rendered
question is capped at 1500 characters and every answer at 2000; and a
non-empty result is bracketed by the sentinel markers. -/
theorem c7_followup_context (mem : List SMEvent) (k : Nat) (hk : 0 < k) :
    (getFollowUpContext mem k = "" ↔ followUpPairs mem = [])
    ∧ (∀ (cur : Option (String × String)) (e1 e2 : SMEvent) (rest : List SMEvent),
        (e1.action = "ocr_capture" ∨ e1.role = "user") →
        (e2.action = "ocr_capture" ∨ e2.role = "user") →
        followUpPairsAux cur (e1 :: e2 :: rest) = followUpPairsAux cur (e2 :: rest))
    ∧ (jsSliceLast (followUpPairs mem) k <:+ followUpPairs mem
      ∧ (jsSliceLast (followUpPairs mem) k).length = min k (followUpPairs mem).length)
    ∧ (∀ p : FollowUpPair,
        (strTake p.question 1500).length ≤ 1500 ∧ (strTake p.answer 2000).length ≤ 2000)
    ∧ (followUpPairs mem ≠ [] →
        ∃ body, getFollowUpContext mem k
          = ("=== PREVIOUS CONVERSATION CONTEXT ===\n" ++ body)
            ++ "\n=== END PREVIOUS CONTEXT ===\n") := by
  refine ⟨?_, ?_, ⟨?_, ?_⟩, ?_, ?_⟩
  · by_cases hp : followUpPairsAux none (mem.filter isRelevantFollowUp) = []
    · have h0 : getFollowUpContext mem k = "" := by
        unfold getFollowUpContext
        by_cases hrel : mem.filter isRelevantFollowUp = []
        · rw [if_pos hrel]
        · rw [if_neg hrel, if_pos hp]
      exact ⟨fun _ => hp, fun _ => h0⟩
    · have hrel : mem.filter isRelevantFollowUp ≠ [] := by
        intro h
        apply hp
        rw [h]
        rfl
      rw [getFollowUpContext, if_neg hrel, if_neg hp]
      have hlen : (renderFollowUpContext
          (jsSliceLast (followUpPairsAux none (mem.filter isRelevantFollowUp)) k)).length
          > 0 := by
        unfold renderFollowUpContext
        rw [String.length_append, String.length_append]
        have h1 : ("=== PREVIOUS CONVERSATION CONTEXT ===\n" : String).length = 38 := by
          decide
        omega
      constructor
      · intro habs
        exact absurd (congrArg String.length habs) (by simp; omega)
      · intro habs
        exact absurd habs hp
  · intro cur e1 e2 rest h1 h2
    rw [followUpPairsAux_question_step e1 (e2 :: rest) h1 cur,
        followUpPairsAux_question_step e2 rest h2,
        followUpPairsAux_question_step e2 rest h2 cur]
  · unfold jsSliceLast
    rw [if_neg (Nat.pos_iff_ne_zero.mp hk)]
    exact List.drop_suffix _ _
  · unfold jsSliceLast
    rw [if_neg (Nat.pos_iff_ne_zero.mp hk), List.length_drop]
    omega
  · intro p
    constructor
    · show (p.question.data.take 1500).length ≤ 1500
      rw [List.length_take]
      omega
    · show (p.answer.data.take 2000).length ≤ 2000
      rw [List.length_take]
      omega
  · intro hne
    have hp : followUpPairsAux none (mem.filter isRelevantFollowUp) ≠ [] := hne
    have hrel : mem.filter isRelevantFollowUp ≠ [] := by
      intro h
      apply hp
      rw [h]
      rfl
    refine ⟨renderFollowUpBody (jsSliceLast (followUpPairs mem) k), ?_⟩
    rw [getFollowUpContext, if_neg hrel, if_neg hp]
    rfl

/-- Concrete instantiation of `c7_followup_context` on five alternating
user/model exchanges with `maxPairs = 3` (the spec test fixture): the context
is non-empty, exactly `min 3 5 = 3` pairs are rendered, and the result is
bracketed by the sentinels. -/
theorem c7_followup_context_witness :
    0 < 3
    ∧ (getFollowUpContext c7Mem 3 = "" ↔ followUpPairs c7Mem = [])
    ∧ followUpPairs c7Mem ≠ []
    ∧ (jsSliceLast (followUpPairs c7Mem) 3).length = min 3 (followUpPairs c7Mem).length
    ∧ (∃ body, getFollowUpContext c7Mem 3
        = ("=== PREVIOUS CONVERSATION CONTEXT ===\n" ++ body)
          ++ "\n=== END PREVIOUS CONTEXT ===\n") :=
  ⟨by decide,
   (c7_followup_context c7Mem 3 (by decide)).1,
   by decide,
   (c7_followup_context c7Mem 3 (by decide)).2.2.1.2,
   (c7_followup_context c7Mem 3 (by decide)).2.2.2.2 (by decide)⟩

/-! ## Claim C5: question classifier -/

/-- C5: for empty text the classifier returns the mode-derived default
without consulting any pattern; for non-empty text it scores each family by
distinct pattern hits (bounded by the family size, so raw match counts never
inflate a score), adds the +2 bias of the recognized biasing modes, and
returns `coding` iff the biased coding score strictly exceeds the biased
design score — design wins all ties. -/
theorem c5_classifier (t mode : String) (ht : t ≠ "") :
    (detectQuestionType "" mode = (if mode = "system-design" then "design" else "coding"))
    ∧ (detectQuestionType t mode = "coding"
        ↔ codingHits (jsToLower t) + codingBias mode
            > designHits (jsToLower t) + designBias mode)
    ∧ (detectQuestionType t mode = "design"
        ↔ codingHits (jsToLower t) + codingBias mode
            ≤ designHits (jsToLower t) + designBias mode)
    ∧ codingHits (jsToLower t) ≤ codingPatterns.length
    ∧ designHits (jsToLower t) ≤ designPatterns.length := by
  have hne : ("coding" : String) ≠ "design" := by decide
  refine ⟨rfl, ?_, ?_, List.length_filter_le _ _, List.length_filter_le _ _⟩
  · by_cases hgt : codingHits (jsToLower t) + codingBias mode
        > designHits (jsToLower t) + designBias mode
    · rw [detectQuestionType, if_neg ht, if_pos hgt]
      exact ⟨fun _ => hgt, fun _ => rfl⟩
    · rw [detectQuestionType, if_neg ht, if_neg hgt]
      exact ⟨fun h => absurd h.symm hne, fun h => absurd h (by omega)⟩
  · by_cases hgt : codingHits (jsToLower t) + codingBias mode
        > designHits (jsToLower t) + designBias mode
    · rw [detectQuestionType, if_neg ht, if_pos hgt]
      exact ⟨fun h => absurd h hne, fun h => by omega⟩
    · rw [detectQuestionType, if_neg ht, if_neg hgt]
      exact ⟨fun _ => by omega, fun _ => rfl⟩

/-- Concrete instantiation of `c5_classifier` at the spec fixtures: a
coding-only text (3 coding hits, 0 design hits) classified as coding even
under the `system-design` bias (3 + 0 > 0 + 2), and — via the iff — an
equal-hits text (`"bfs cache"`, 1 hit each with no bias) falling to design on
the tie. -/
theorem c5_classifier_witness :
    ("bfs example array" : String) ≠ ""
    ∧ (detectQuestionType "bfs example array" "system-design" = "coding"
        ↔ codingHits (jsToLower "bfs example array") + codingBias "system-design"
            > designHits (jsToLower "bfs example array") + designBias "system-design")
    ∧ (("bfs cache" : String) ≠ ""
      ∧ (detectQuestionType "bfs cache" "none" = "design"
          ↔ codingHits (jsToLower "bfs cache") + codingBias "none"
              ≤ designHits (jsToLower "bfs cache") + designBias "none")) :=
  ⟨by decide,
   (c5_classifier "bfs example array" "system-design" (by decide)).2.1,
   by decide,
   (c5_classifier "bfs cache" "none" (by decide)).2.2.1⟩

/-! ## Claim C6: response splitter -/

/-- C6 (code bug): on the spec fixture `"## Part A\nDo X\n## Part B\nCode Y"`
the greedy separator class `[\s—\-:]*` of the Part-A regex swallows the
newline after the bare `## Part A` header, `[^\r\n]*` then treats `Do X` as
header-line tail, and the lazy capture stops immediately at the Part-B
lookahead — so the code returns `partA = ""` and the content `Do X` is
dropped, where the claim (and the splitter's own header-format tolerance,
which lists bare `## Part A`) requires `partA = "Do X"`.  With a titled
header (`## Part A — Title`) the intended split does occur, and the
no-label fallback and single-label behaviours hold. -/
theorem c6_splitter_divergence :
    splitStructuredResponse "## Part A\nDo X\n## Part B\nCode Y" = ("", "Code Y")
    ∧ splitStructuredResponse "no labels here" = ("", "no labels here")
    ∧ splitStructuredResponse "## Part A — Title\nDo X\n## Part B — T2\nCode Y"
        = ("Do X", "Code Y")
    ∧ splitStructuredResponse "## Part A\nDo X" = ("Do X", "")
    ∧ splitStructuredResponse "intro\n## Part B\nCode Y" = ("", "Code Y")
    ∧ splitStructuredResponse "**Part A:** alpha\nBody A\n# part b\nBody B"
        = ("Body A", "Body B") := by
  decide

/-! ## Claim C1: retry/backoff and multi-model fallback -/

/-- Success characterization of the retry loop: if every attempt before `j`
fails and attempt `j` (within the fuel budget) returns a truthy payload,
the loop returns that payload after exactly `j` attempts, having awaited
the backoff delays `1000 * attempt` for every failed attempt. -/
theorem executeRequestAux_success (oracle : Nat → Option String) (t : String)
    (ht : t ≠ "") :
    ∀ fuel attempt j : Nat, attempt ≤ j → j ≤ attempt + fuel →
      (∀ i, attempt ≤ i → i < j → attemptFails (oracle i)) →
      oracle j = some t →
      executeRequestAux oracle fuel attempt
        = { result := some t, attempts := j,
            delays := (List.range' attempt (j - attempt)).map (fun a => 1000 * a) } := by
  intro fuel
  induction fuel with
  | zero =>
    intro attempt j hle hub hfail hj
    have heq : attempt = j := by omega
    subst heq
    simp [executeRequestAux, hj, ht, Nat.sub_self, List.range']
  | succ f ih =>
    intro attempt j hle hub hfail hj
    by_cases heq : attempt = j
    · subst heq
      simp [executeRequestAux, hj, ht, Nat.sub_self, List.range']
    · have hlt : attempt < j := lt_of_le_of_ne hle heq
      have step : executeRequestAux oracle (f + 1) attempt
          = { executeRequestAux oracle f (attempt + 1) with
              delays := 1000 * attempt :: (executeRequestAux oracle f (attempt + 1)).delays } := by
        rcases hfail attempt le_rfl hlt with hn | he
        · simp [executeRequestAux, hn]
        · simp [executeRequestAux, he]
      rw [step, ih (attempt + 1) j (by omega) (by omega)
        (fun i h1 h2 => hfail i (by omega) h2) hj]
      have hr : j - attempt = (j - (attempt + 1)) + 1 := by omega
      rw [hr, List.range'_succ, List.map_cons]

/-- The called-model list of the vision loop is a prefix of the candidate
list (each candidate is called at most once, in order). -/
theorem tryVisionModels_calledFront (oracle : String → Option String) :
    ∀ models, (tryVisionModels oracle models).2 <+: models
  | [] => List.nil_prefix
  | m :: rest => by
    cases ho : oracle m with
    | some c =>
      simp only [tryVisionModels, ho]
      exact ⟨rest, rfl⟩
    | none =>
      have ih := tryVisionModels_calledFront oracle rest
      simp only [tryVisionModels, ho]
      obtain ⟨tail, htail⟩ := ih
      exact ⟨tail, by simp [htail]⟩

/-- The vision loop fails exactly when every candidate's single call
throws. -/
theorem tryVisionModels_none_iff (oracle : String → Option String) :
    ∀ models, (tryVisionModels oracle models).1 = none ↔ ∀ m ∈ models, oracle m = none
  | [] => by simp [tryVisionModels]
  | m :: rest => by
    cases ho : oracle m with
    | some c => simp [tryVisionModels, ho]
    | none =>
      have ih := tryVisionModels_none_iff oracle rest
      simp [tryVisionModels, ho, ih]

/-- Inversion of a successful vision extraction: the model used is a
candidate whose single call returned that text. -/
theorem tryVisionModels_some (oracle : String → Option String) :
    ∀ models text m, (tryVisionModels oracle models).1 = some (text, m) →
      oracle m = some text ∧ m ∈ models
  | [], text, m => by simp [tryVisionModels]
  | m0 :: rest, text, m => by
    cases ho : oracle m0 with
    | some c =>
      intro h
      simp only [tryVisionModels, ho, Option.some.injEq, Prod.mk.injEq] at h
      obtain ⟨hc, hm⟩ := h
      subst hc
      subst hm
      exact ⟨ho, List.mem_cons_self _ _⟩
    | none =>
      intro h
      simp only [tryVisionModels, ho] at h
      have := tryVisionModels_some oracle rest text m h
      exact ⟨this.1, List.mem_cons_of_mem _ this.2⟩

/-- C1 counterexample: in the claim scenario (two candidate models, the
first always failing, the second succeeding only on its 2nd attempt) the
code's multi-model fallback — the vision loop, the only place candidate
models are iterated — gives every candidate exactly one attempt, so the
result is failure, not success, and no model records a 2nd attempt. -/
theorem c1_no_per_model_retries :
    (tryVisionModels (fun m => c1AttemptOracle m 1) c1Candidates).1 = none
    ∧ (tryVisionModels (fun m => c1AttemptOracle m 1) c1Candidates).2 = c1Candidates := by
  decide

/-- C1 (amended): the retry policy — up to `maxRetries` attempts with
backoff `1000 * attempt` between tries — applies only to the single
configured chat model inside `executeRequest`, which iterates no candidate
list; the multi-candidate fallback (the vision-extraction loop) attempts
each candidate in order exactly once, with no per-model retries and no
backoff; with two candidates where the first always fails, the overall
result succeeds iff the second candidate's single attempt succeeds. -/
theorem c1_retry_fallback_structure :
    (∀ (oracle : Nat → Option String) (maxRetries j : Nat) (t : String),
        1 ≤ j → j ≤ maxRetries →
        (∀ i, 1 ≤ i → i < j → attemptFails (oracle i)) →
        oracle j = some t → t ≠ "" →
        executeRequest oracle maxRetries
          = { result := some t, attempts := j,
              delays := (List.range' 1 (j - 1)).map (fun a => 1000 * a) })
    ∧ (∀ (oracle : String → Option String) (models : List String),
        (tryVisionModels oracle models).2 <+: models
        ∧ ((tryVisionModels oracle models).1 = none ↔ ∀ m ∈ models, oracle m = none)
        ∧ ∀ text m, (tryVisionModels oracle models).1 = some (text, m) →
            oracle m = some text ∧ m ∈ models)
    ∧ (∀ (oracle : String → Option String) (m1 m2 : String),
        oracle m1 = none →
        (tryVisionModels oracle [m1, m2]).1 = (oracle m2).map (fun t => (t, m2))) := by
  refine ⟨?_, ?_, ?_⟩
  · intro oracle maxRetries j t h1 hj hfail hsucc ht
    cases maxRetries with
    | zero => omega
    | succ n =>
      rw [executeRequest]
      exact executeRequestAux_success oracle t ht n 1 j h1 (by omega) hfail hsucc
  · intro oracle models
    exact ⟨tryVisionModels_calledFront oracle models,
           tryVisionModels_none_iff oracle models,
           tryVisionModels_some oracle models⟩
  · intro oracle m1 m2 hm1
    cases ho : oracle m2 with
    | some c => simp [tryVisionModels, hm1, ho]
    | none => simp [tryVisionModels, hm1, ho]

/-- Concrete instantiation of `c1_retry_fallback_structure`: with the
default `maxRetries = 3` and a single-model oracle failing once then
succeeding, `executeRequest` returns success after 2 attempts with one
backoff delay of `1000 * 1`; and with two candidates where only the first
fails, the vision loop succeeds via the second candidate's single call. -/
theorem c1_retry_fallback_structure_witness :
    ((1 : Nat) ≤ 2 ∧ (2 : Nat) ≤ 3
      ∧ (∀ i, 1 ≤ i → i < 2 → attemptFails (c1WOracle i))
      ∧ c1WOracle 2 = some "ok" ∧ ("ok" : String) ≠ ""
      ∧ executeRequest c1WOracle 3
          = { result := some "ok", attempts := 2,
              delays := (List.range' 1 1).map (fun a => 1000 * a) })
    ∧ (c1W2Oracle "m1" = none
      ∧ (tryVisionModels c1W2Oracle ["m1", "m2"]).1
          = (c1W2Oracle "m2").map (fun t => (t, "m2"))) :=
  ⟨⟨by decide, by decide,
    fun i h1 h2 => by
      have hi : i = 1 := by omega
      subst hi
      exact Or.inl rfl,
    rfl, by decide,
    c1_retry_fallback_structure.1 c1WOracle 3 2 "ok" (by decide) (by decide)
      (fun i h1 h2 => by
        have hi : i = 1 := by omega
        subst hi
        exact Or.inl rfl)
      rfl (by decide)⟩,
   ⟨rfl, c1_retry_fallback_structure.2.2 c1W2Oracle "m1" "m2" rfl⟩⟩

/-! ## Claim C8: uninitialized-backend short circuit -/

/-- C8: with the client uninitialized (no credentials), each of the three
orchestration entry points returns the canned, skill-aware fallback response
immediately, having made zero network calls; the fallback carries
`usedFallback = true` and a per-skill canned text. -/
theorem c8_uninitialized_short_circuit :
    (∀ (loader : String → Option String) (oracle : List ChatMsg → Nat → Option String)
        (maxRetries : Nat) (chatModel : String) (managerMem : List SMEvent)
        (text activeSkill : String) (sessionMemory : List SMEvent)
        (lang : Option String) (complexity : String) (isF : Bool),
        processTextWithSkill false loader oracle maxRetries chatModel managerMem
            text activeSkill sessionMemory lang complexity isF
          = (.fallback (generateFallbackResponse text activeSkill), 0))
    ∧ (∀ (loader : String → Option String) (oracle : List ChatMsg → Nat → Option String)
        (maxRetries : Nat) (chatModel : String) (managerMem : List SMEvent)
        (text activeSkill : String) (sessionMemory : List SMEvent)
        (lang : Option String) (isF : Bool),
        processTranscriptionWithIntelligentResponse false loader oracle maxRetries
            chatModel managerMem text activeSkill sessionMemory lang isF
          = (.fallback (generateFallbackResponse text activeSkill), 0))
    ∧ (∀ (loader : String → Option String) (visionOracle : String → Option String)
        (oracle : List ChatMsg → Nat → Option String) (maxRetries : Nat)
        (chatModel : String) (managerMem : List SMEvent) (activeSkill : String)
        (sessionMemory : List SMEvent) (lang : Option String) (isF : Bool),
        processScreenCaptureWithStructuredResponse false loader visionOracle oracle
            maxRetries chatModel managerMem activeSkill sessionMemory lang isF
          = (.fallback (generateFallbackResponse "Image analysis requested" activeSkill), 0))
    ∧ (∀ text activeSkill : String,
        (generateFallbackResponse text activeSkill).usedFallback = true)
    ∧ (∀ text activeSkill : String,
        (generateFallbackResponse text activeSkill).response
          = (if activeSkill = "system-design" then fallbackDesignText
             else if activeSkill = "technical-screening" then fallbackScreeningText
             else fallbackDsaText)
        ∧ (generateFallbackResponse text activeSkill).skill = activeSkill) :=
  ⟨fun _ _ _ _ _ _ _ _ _ _ _ => rfl,
   fun _ _ _ _ _ _ _ _ _ _ => rfl,
   fun _ _ _ _ _ _ _ _ _ _ => rfl,
   fun _ _ => rfl,
   fun _ _ => ⟨rfl, rfl⟩⟩

end DV
